import Mathlib

/-
Verification development for a small database-provisioning and CRUD demo
repository.  The repository manages a PostgreSQL or MongoDB server inside a
named container, checks for a pre-existing target database, optionally drops
and recreates it after an interactive confirmation, loads a seed script, and
exposes CRUD operations over a cats collection and a tasks schema.

The embedding below translates the relevant Python functions into pure Lean
functions.  Side effects are made explicit:
  - the container manager is a world value (a list of named containers with a
    status string plus flags saying which SDK calls would raise),
  - exceptions are Except values; an operation whose Python body catches every
    engine error has a total return type, an operation that can leak an
    exception returns Except,
  - printed messages are returned as a list of log strings,
  - database and file system contents are explicit fields of the world.
-/

/-! ## Python string helpers

The confirmation prompt reads the answer with response.strip().lower().
These two helpers model CPython str.strip (no argument) and str.lower for
the ASCII inputs the prompt deals with. -/

def isPySpace (c : Char) : Bool :=
  c = ' ' || c = '\t' || c = '\n' || c = '\r' || c = Char.ofNat 11 || c = Char.ofNat 12

def pyStrip (s : String) : String :=
  ⟨((s.data.dropWhile isPySpace).reverse.dropWhile isPySpace).reverse⟩

def pyLower (s : String) : String :=
  ⟨s.data.map Char.toLower⟩

/-! ## Container manager world

Models the docker SDK surface used by the repository: get a container by
name, start it, run a new one, stop it, remove it.  Every container has a
status string; the status observed at the reload after the fixed settle wait
is a field of the world.  The flags record which SDK calls would raise an
APIError (for example a failing start because the host port is taken); the
only exception type the source ever catches is NotFound, which the model
reflects by branch structure rather than by a thrown value. -/

inductive DockerErr where
  | apiError
deriving DecidableEq, Repr

structure DockerWorld where
  containers : List (String × String)
  startRaises : Bool
  runRaises : Bool
  stopRaises : Bool
  removeRaises : Bool
  statusAfterWait : String
deriving DecidableEq, Repr

def lookupStatus : List (String × String) → String → Option String
  | [], _ => none
  | p :: ps, name => if p.1 == name then some p.2 else lookupStatus ps name

def getContainer (w : DockerWorld) (name : String) : Option String :=
  lookupStatus w.containers name

def setContainerStatus (w : DockerWorld) (name status : String) : DockerWorld :=
  { w with containers := w.containers.map (fun p => if p.1 == name then (p.1, status) else p) }

def addContainer (w : DockerWorld) (name status : String) : DockerWorld :=
  { w with containers := w.containers ++ [(name, status)] }

def removeContainer (w : DockerWorld) (name : String) : DockerWorld :=
  { w with containers := w.containers.filter (fun p => !(p.1 == name)) }

def pgContainerName : String := "my_postgres_container"

def mongoContainerName : String := "my_mongodb_container"

/-- Connection parameter record (host, port, credentials, target name). -/
structure PgConnParams where
  user : String
  password : String
  host : String
  port : String
  dbname : String
deriving DecidableEq, Repr

/-! PostgresDatabaseInitializer.start_container (DatabaseManager.py 59-88).
The try block catches only docker.errors.NotFound (handled by creating the
container); a raising start or run call propagates.  On the already-running
path the source has its status message commented out, so that branch logs
nothing.  The result boolean re-reads the status after reload. -/

def pg_start_container (w : DockerWorld) : Except DockerErr (Bool × DockerWorld × List String) :=
  match getContainer w pgContainerName with
  | some st =>
    if st ≠ "running" then
      if w.startRaises then Except.error DockerErr.apiError
      else
        let w2 := setContainerStatus w pgContainerName w.statusAfterWait
        Except.ok (getContainer w2 pgContainerName == some "running", w2,
          ["PostgreSQL container exists but is not running. Starting container...",
           "Waiting for PostgreSQL database to start..."])
    else
      Except.ok (getContainer w pgContainerName == some "running", w, [])
  | none =>
    if w.runRaises then Except.error DockerErr.apiError
    else
      let w2 := addContainer w pgContainerName w.statusAfterWait
      Except.ok (getContainer w2 pgContainerName == some "running", w2,
        ["PostgreSQL container not found. Creating and starting a new container...",
         "Waiting for PostgreSQL database to start..."])

/-! MongoDBInitializer.start_container (DatabaseManager.py 196-221): same
control flow, Mongo container name and messages; the already-running status
message is commented out in the source here as well. -/

def mongo_start_container (w : DockerWorld) : Except DockerErr (Bool × DockerWorld × List String) :=
  match getContainer w mongoContainerName with
  | some st =>
    if st ≠ "running" then
      if w.startRaises then Except.error DockerErr.apiError
      else
        let w2 := setContainerStatus w mongoContainerName w.statusAfterWait
        Except.ok (getContainer w2 mongoContainerName == some "running", w2,
          ["MongoDB container exists but is not running. Starting container...",
           "Waiting for MongoDB to start..."])
    else
      Except.ok (getContainer w mongoContainerName == some "running", w, [])
  | none =>
    if w.runRaises then Except.error DockerErr.apiError
    else
      let w2 := addContainer w mongoContainerName w.statusAfterWait
      Except.ok (getContainer w2 mongoContainerName == some "running", w2,
        ["MongoDB container not found. Creating and starting a new container...",
         "Waiting for MongoDB to start..."])

/-! DatabaseInitializer.start_postgres_container (DatabaseInitializer.py
21-59): same flow as pg_start_container except that the already-running
branch prints its message.  The db_params argument only configures the port
mapping and environment of a newly created container. -/

def di_start_postgres_container (db_params : PgConnParams) (w : DockerWorld) :
    Except DockerErr (Bool × DockerWorld × List String) :=
  match getContainer w pgContainerName with
  | some st =>
    if st ≠ "running" then
      if w.startRaises then Except.error DockerErr.apiError
      else
        let w2 := setContainerStatus w pgContainerName w.statusAfterWait
        Except.ok (getContainer w2 pgContainerName == some "running", w2,
          ["Container exists but is not running. Starting container...",
           "Waiting for PostgreSQL database to start..."])
    else
      Except.ok (getContainer w pgContainerName == some "running", w,
        ["Container is already running."])
  | none =>
    if w.runRaises then Except.error DockerErr.apiError
    else
      let w2 := addContainer w pgContainerName w.statusAfterWait
      Except.ok (getContainer w2 pgContainerName == some "running", w2,
        ["Container not found. Creating and starting a new container...",
         "Waiting for PostgreSQL database to start..."])

/-! PostgresDatabaseInitializer.stop_container (DatabaseManager.py 167-183)
and MongoDBInitializer.stop_container (289-305).  NotFound from the name
lookup is caught and logged; stop and remove calls can raise and are not
caught, but they are only reached when the container exists. -/

def pg_stop_container (w : DockerWorld) (remove : Bool) :
    Except DockerErr (DockerWorld × List String) :=
  match getContainer w pgContainerName with
  | some st =>
    if st = "running" then
      if w.stopRaises then Except.error DockerErr.apiError
      else
        let w2 := setContainerStatus w pgContainerName "exited"
        let log1 := ["Stopping the PostgreSQL container...",
                     "PostgreSQL container stopped successfully."]
        if remove then
          if w.removeRaises then Except.error DockerErr.apiError
          else
            Except.ok (removeContainer w2 pgContainerName,
              log1 ++ ["Removing the PostgreSQL container...",
                       "PostgreSQL container removed successfully."])
        else Except.ok (w2, log1)
    else
      let log1 := ["PostgreSQL container is not running."]
      if remove then
        if w.removeRaises then Except.error DockerErr.apiError
        else
          Except.ok (removeContainer w pgContainerName,
            log1 ++ ["Removing the PostgreSQL container...",
                     "PostgreSQL container removed successfully."])
      else Except.ok (w, log1)
  | none =>
    Except.ok (w, ["PostgreSQL container not found."])

def mongo_stop_container (w : DockerWorld) (remove : Bool) :
    Except DockerErr (DockerWorld × List String) :=
  match getContainer w mongoContainerName with
  | some st =>
    if st = "running" then
      if w.stopRaises then Except.error DockerErr.apiError
      else
        let w2 := setContainerStatus w mongoContainerName "exited"
        let log1 := ["Stopping the MongoDB container...",
                     "MongoDB container stopped successfully."]
        if remove then
          if w.removeRaises then Except.error DockerErr.apiError
          else
            Except.ok (removeContainer w2 mongoContainerName,
              log1 ++ ["Removing the MongoDB container...",
                       "MongoDB container removed successfully."])
        else Except.ok (w2, log1)
    else
      let log1 := ["MongoDB container is not running."]
      if remove then
        if w.removeRaises then Except.error DockerErr.apiError
        else
          Except.ok (removeContainer w mongoContainerName,
            log1 ++ ["Removing the MongoDB container...",
                     "MongoDB container removed successfully."])
      else Except.ok (w, log1)
  | none =>
    Except.ok (w, ["MongoDB container not found."])

/-! ## Provisioning orchestration

DatabaseManager.initialize_database (DatabaseManager.py 320-347) and
DatabaseInitializer.initialize_database (DatabaseInitializer.py 164-188)
share one control flow over the capability interface:
  start container -> exists check -> optional confirmed drop and create ->
  run script -> return true; or return false when the start reports failure.
The sub-operations drop, create and run-script swallow their own errors and
return nothing, so the orchestration only branches on the boolean results of
the start and the exists check; the model takes those two outcomes as
arguments and records which sub-operations get invoked as an event trace.
The operator answer is normalized with strip and lower before the
comparison with the literal yes, exactly as in the source. -/

inductive InitEvent where
  | startContainer
  | checkExists
  | dropDatabase
  | createDatabase
  | executeScript (path : String)
deriving DecidableEq, Repr

def dm_initialize_database (startOk checkResult : Bool) (response script_path : String) :
    Bool × List InitEvent :=
  if startOk then
    let middle :=
      if checkResult then
        if pyLower (pyStrip response) = "yes" then
          [InitEvent.dropDatabase, InitEvent.createDatabase]
        else []
      else [InitEvent.createDatabase]
    (true, [InitEvent.startContainer, InitEvent.checkExists] ++ middle ++
      [InitEvent.executeScript script_path])
  else
    (false, [InitEvent.startContainer])

def di_initialize_database (startOk checkResult : Bool) (response sql_file_path : String) :
    Bool × List InitEvent :=
  if startOk then
    let middle :=
      if checkResult then
        if pyLower (pyStrip response) = "yes" then
          [InitEvent.dropDatabase, InitEvent.createDatabase]
        else []
      else [InitEvent.createDatabase]
    (true, [InitEvent.startContainer, InitEvent.checkExists] ++ middle ++
      [InitEvent.executeScript sql_file_path])
  else
    (false, [InitEvent.startContainer])

/-! ## PostgreSQL database-level operations

World for the psycopg2-backed operations: whether connections succeed,
which script files exist, whether statement execution succeeds, and the set
of database names on the server. -/

structure PgScriptWorld where
  connOk : Bool
  files : List String
  execOk : Bool
deriving DecidableEq, Repr

inductive PgEv where
  | connect
  | openFile (path : String)
  | execSql
  | commitTx
deriving DecidableEq, Repr

/-! PostgresDatabaseInitializer.execute_script (DatabaseManager.py 146-165):
an empty script path returns before any work; otherwise connect, read the
file, execute, commit, and any exception is caught and logged at this
boundary. -/

def pg_execute_script (w : PgScriptWorld) (script_path : String) : List PgEv × List String :=
  if script_path = "" then
    ([], ["No script path provided. Skipping script execution."])
  else if !w.connOk then
    ([PgEv.connect],
     ["An error occurred while executing the PostgreSQL script: connection failed"])
  else if !(w.files.contains script_path) then
    ([PgEv.connect, PgEv.openFile script_path],
     ["An error occurred while executing the PostgreSQL script: no such file"])
  else if !w.execOk then
    ([PgEv.connect, PgEv.openFile script_path, PgEv.execSql],
     ["An error occurred while executing the PostgreSQL script: execution failed"])
  else
    ([PgEv.connect, PgEv.openFile script_path, PgEv.execSql, PgEv.commitTx],
     ["PostgreSQL script executed successfully."])

/-! DatabaseInitializer.execute_sql_script (DatabaseInitializer.py 138-162):
identical body but with no empty-path guard, so the connection attempt
happens before the file is opened even when the path is empty; the open then
fails and is caught and logged. -/

def di_execute_sql_script (w : PgScriptWorld) (sql_file_path : String) : List PgEv × List String :=
  if !w.connOk then
    ([PgEv.connect],
     ["An error occurred while executing the SQL script: connection failed"])
  else if !(w.files.contains sql_file_path) then
    ([PgEv.connect, PgEv.openFile sql_file_path],
     ["An error occurred while executing the SQL script: no such file"])
  else if !w.execOk then
    ([PgEv.connect, PgEv.openFile sql_file_path, PgEv.execSql],
     ["An error occurred while executing the SQL script: execution failed"])
  else
    ([PgEv.connect, PgEv.openFile sql_file_path, PgEv.execSql, PgEv.commitTx],
     ["SQL script executed successfully."])

/-! PostgresDatabaseInitializer.check_database_exists (DatabaseManager.py
90-110): queries pg_database for the target name; a connectivity error is
caught at this boundary, logged, and turned into the sentinel false. -/

structure PgServerWorld where
  connOk : Bool
  databases : List String
deriving DecidableEq, Repr

def pg_check_database_exists (w : PgServerWorld) (dbname : String) : Bool × List String :=
  if w.connOk then
    (w.databases.contains dbname, [])
  else
    (false, ["An error occurred while checking the PostgreSQL database: connection failed"])

/-! ## MongoDB document model

Documents are association lists from field names to flat bson values; the
values needed by the seed scripts are object identifiers, strings and
numbers.  The global ObjectId generator is modeled as a counter in the
world: ObjectId() yields objId of the current counter value and bumps it. -/

inductive MVal where
  | objId (n : Nat)
  | str (s : String)
  | num (z : Int)
deriving DecidableEq, Repr

abbrev MDoc := List (String × MVal)

inductive MJson where
  | obj (d : MDoc)
  | arr (ds : List MDoc)
  | other
deriving DecidableEq, Repr

def getField : MDoc → String → Option MVal
  | [], _ => none
  | p :: ps, k => if p.1 == k then some p.2 else getField ps k

/-! Python dict assignment: replace the value of the (unique) existing key
in place, append the pair at the end otherwise. -/

def setField : MDoc → String → MVal → MDoc
  | [], k, v => [(k, v)]
  | p :: ps, k, v => if p.1 == k then (k, v) :: ps else p :: setField ps k v

/-! bson.ObjectId accepts an existing ObjectId unchanged and a 24-character
hexadecimal string, and raises on anything else. -/

def isHexDigitChar (c : Char) : Bool :=
  ('0' ≤ c && c ≤ '9') || ('a' ≤ c && c ≤ 'f') || ('A' ≤ c && c ≤ 'F')

def hexDigitVal (c : Char) : Nat :=
  if '0' ≤ c && c ≤ '9' then c.toNat - '0'.toNat
  else if 'a' ≤ c && c ≤ 'f' then c.toNat - 'a'.toNat + 10
  else if 'A' ≤ c && c ≤ 'F' then c.toNat - 'A'.toNat + 10
  else 0

def isValidOidString (s : String) : Bool :=
  s.length = 24 && s.data.all isHexDigitChar

def hexToNat (s : String) : Nat :=
  s.data.foldl (fun a c => 16 * a + hexDigitVal c) 0

def oidCoerce : MVal → Option MVal
  | MVal.objId n => some (MVal.objId n)
  | MVal.str s => if isValidOidString s then some (MVal.objId (hexToNat s)) else none
  | MVal.num _ => none

/-! The for loop of MongoDBInitializer.execute_script: every document
without an _id field gets a freshly generated identifier, every document
with one gets the value coerced to ObjectId; a failing coercion raises,
aborting the loop before any insertion (the inner except catches it).
Returns the rewritten documents and the advanced generator counter, or none
when a coercion raised. -/

def assignIds : List MDoc → Nat → Option (List MDoc × Nat)
  | [], c => some ([], c)
  | d :: ds, c =>
    match getField d "_id" with
    | none =>
      match assignIds ds (c + 1) with
      | none => none
      | some (ds2, c2) => some (setField d "_id" (MVal.objId c) :: ds2, c2)
    | some v =>
      match oidCoerce v with
      | none => none
      | some v2 =>
        match assignIds ds c with
        | none => none
        | some (ds2, c2) => some (setField d "_id" v2 :: ds2, c2)

def docId (d : MDoc) : Option MVal :=
  getField d "_id"

def collIds (coll : List MDoc) : List MVal :=
  coll.filterMap docId

/-! insert_many with ordered false against the unique _id index: each
document is attempted in turn, a duplicate identifier fails only that
document, and the remaining documents are still attempted. -/

def insertOneUnordered (coll : List MDoc) (d : MDoc) : List MDoc :=
  match docId d with
  | some i => if i ∈ collIds coll then coll else coll ++ [d]
  | none => coll ++ [d]

def insertManyUnordered (coll : List MDoc) (ds : List MDoc) : List MDoc :=
  ds.foldl insertOneUnordered coll

inductive MEv where
  | openFile (path : String)
  | connect
  | insertMany (ordered : Bool)
deriving DecidableEq, Repr

structure MongoWorld where
  fileData : Option MJson
  coll : List MDoc
  nextOid : Nat
  connOk : Bool
deriving DecidableEq, Repr

/-! MongoDBInitializer.execute_script (DatabaseManager.py 255-287): empty
path returns before any work; the file is loaded and parsed (fileData none
models a failing open or parse, caught by the outer except); a single
object is wrapped into a one-element array; the client is constructed; for
an array the identifier loop runs and insert_many is called with ordered
false, with the inner except catching loop and insert errors; any other
parse shape is reported as unknown.  Every branch returns normally. -/

def mongo_execute_script (w : MongoWorld) (script_path : String) :
    MongoWorld × List MEv × List String :=
  if script_path = "" then
    (w, [], ["No script path provided. Skipping script execution."])
  else
    match w.fileData with
    | none =>
      (w, [MEv.openFile script_path],
       ["An error occurred while executing the MongoDB script: load failed"])
    | some j =>
      let data := match j with
        | MJson.obj d => MJson.arr [d]
        | x => x
      match data with
      | MJson.arr ds =>
        match assignIds ds w.nextOid with
        | none =>
          (w, [MEv.openFile script_path, MEv.connect],
           ["An error occurred while inserting documents: invalid ObjectId"])
        | some (ds2, c2) =>
          if w.connOk then
            ({ w with coll := insertManyUnordered w.coll ds2, nextOid := c2 },
             [MEv.openFile script_path, MEv.connect, MEv.insertMany false],
             ["MongoDB script executed successfully."])
          else
            ({ w with nextOid := c2 },
             [MEv.openFile script_path, MEv.connect],
             ["An error occurred while inserting documents: connection failed"])
      | _ =>
        (w, [MEv.openFile script_path, MEv.connect],
         ["Unknown data format. Skipping import."])

/-! ## Cats collection (CatManager.py, main.py)

A cat record as created by create_cat.  The facade methods issue update_one
and delete_one document operations, which match and affect at most the
first document satisfying the name filter, in collection order; the model
bakes in that driver contract. -/

structure Cat where
  oid : Nat
  name : String
  age : Int
  features : List String
deriving DecidableEq, Repr

/-! update_one: rewrite the first record satisfying the filter with the
update function, leave everything else in place; the second component is
matched_count. -/

def updateFirst (p : Cat → Bool) (f : Cat → Cat) : List Cat → List Cat × Nat
  | [] => ([], 0)
  | c :: cs =>
    if p c then (f c :: cs, 1)
    else
      let r := updateFirst p f cs
      (c :: r.1, r.2)

/-! delete_one: remove the first record satisfying the filter; the second
component is deleted_count. -/

def deleteFirst (p : Cat → Bool) : List Cat → List Cat × Nat
  | [] => ([], 0)
  | c :: cs =>
    if p c then (cs, 1)
    else
      let r := deleteFirst p cs
      (c :: r.1, r.2)

/-! CatManager.update_cat_age (CatManager.py 38-49): update_one with a
name filter and a set of the age field. -/

def cm_update_cat_age (coll : List Cat) (name : String) (new_age : Int) : List Cat × Nat :=
  updateFirst (fun c => c.name == name) (fun c => { c with age := new_age }) coll

/-! The addToSet update operator on the features array: append the value
only when it is not already present; pre-existing occurrences, including
duplicated ones, are left as they are. -/

def addToSetFeature (feature : String) (c : Cat) : Cat :=
  if feature ∈ c.features then c else { c with features := c.features ++ [feature] }

/-! CatManager.add_feature_to_cat (CatManager.py 51-62): update_one with a
name filter and an addToSet of the feature value. -/

def cm_add_feature_to_cat (coll : List Cat) (name feature : String) : List Cat × Nat :=
  updateFirst (fun c => c.name == name) (addToSetFeature feature) coll

/-! CatManager.delete_cat_by_name (CatManager.py 64-73): delete_one with a
name filter. -/

def cm_delete_cat_by_name (coll : List Cat) (name : String) : List Cat × Nat :=
  deleteFirst (fun c => c.name == name) coll

/-! ## seed.py DatabaseInitializer.init_database (seed.py 66-99)

Connects to the server, executes the first statement of the embedded SQL
script, reconnects to the new database and executes the remaining
statements.  Both except clauses print a message and then re-raise, and the
finally clause closes the connection when one was opened; so every database
error escapes to the caller.  The world says whether the first connection
and the later statements succeed. -/

structure SeedWorld where
  firstConnectFails : Bool
  execFails : Bool
deriving DecidableEq, Repr

def seed_init_database (w : SeedWorld) : List String × Except Unit Unit :=
  if w.firstConnectFails then
    (["Database error: connection failed"], Except.error ())
  else if w.execFails then
    (["Creating database...", "Database error: statement failed",
      "Initial database connection closed."], Except.error ())
  else
    (["Creating database...", "Database initialized successfully!",
      "Initial database connection closed."], Except.ok ())

/-! ## TaskManager.get_user_tasks (TaskManager.py 72-88)

A select of the tasks of one user joined with the status table; the method
has no try block, so a raising cursor.execute propagates to the caller.
Status identifiers are unique in the schema, so the join is rendered as a
lookup of each task status row. -/

structure TaskRec where
  id : Nat
  title : String
  description : Option String
  status_id : Nat
  user_id : Nat
deriving DecidableEq, Repr

structure StatusRec where
  id : Nat
  name : String
deriving DecidableEq, Repr

structure TaskDbWorld where
  tasks : List TaskRec
  statuses : List StatusRec
  queryFails : Bool
deriving DecidableEq, Repr

structure UserTaskRow where
  id : Nat
  title : String
  description : Option String
  status : String
deriving DecidableEq, Repr

def tm_get_user_tasks (w : TaskDbWorld) (user_id : Nat) : Except Unit (List UserTaskRow) :=
  if w.queryFails then Except.error ()
  else
    Except.ok ((w.tasks.filter (fun t => t.user_id == user_id)).filterMap
      (fun t => (w.statuses.find? (fun s => s.id == t.status_id)).map
        (fun s => UserTaskRow.mk t.id t.title t.description s.name)))

/-! ## DatabaseManager.get_initializer (DatabaseManager.py 309-318)

Returns the variant for the two enum members and raises ValueError for any
other argument value; none models a value outside the enum, which the
untyped call site could pass. -/

inductive DatabaseType where
  | postgresql
  | mongodb
deriving DecidableEq, Repr

inductive InitializerKind where
  | postgres
  | mongo
deriving DecidableEq, Repr

def get_initializer : Option DatabaseType → Except Unit InitializerKind
  | some DatabaseType.postgresql => Except.ok InitializerKind.postgres
  | some DatabaseType.mongodb => Except.ok InitializerKind.mongo
  | none => Except.error ()

/-! ## Auxiliary definitions used by theorem statements -/

/-! Number of positions at which two collections differ (compared pointwise
up to the shorter length). -/

def countChanged : List Cat → List Cat → Nat
  | [], _ => 0
  | _, [] => 0
  | a :: xs, b :: ys => (if a = b then 0 else 1) + countChanged xs ys

/-! The list of identifiers a counter-based ObjectId generator produces:
idList c n = [objId c, objId (c+1), ..., objId (c+n-1)]. -/

def idList (c : Nat) : Nat → List MVal
  | 0 => []
  | n + 1 => MVal.objId c :: idList (c + 1) n

/-! ## Helper lemmas -/

theorem lookupStatus_set (l : List (String × String)) (name st s : String)
    (h : lookupStatus l name = some st) :
    lookupStatus (l.map (fun p => if p.1 == name then (p.1, s) else p)) name = some s := by
  induction l with
  | nil => simp [lookupStatus] at h
  | cons p ps ih =>
    cases hp : (p.1 == name) with
    | true => simp [lookupStatus, hp]
    | false =>
      simp only [lookupStatus, hp, if_false, Bool.false_eq_true, ite_false] at h
      simp only [List.map_cons, lookupStatus, hp, Bool.false_eq_true, ite_false]
      exact ih h

theorem lookupStatus_append_absent (l : List (String × String)) (name s : String)
    (h : lookupStatus l name = none) :
    lookupStatus (l ++ [(name, s)]) name = some s := by
  induction l with
  | nil => simp [lookupStatus]
  | cons p ps ih =>
    cases hp : (p.1 == name) with
    | true => simp [lookupStatus, hp] at h
    | false =>
      simp only [lookupStatus, hp, Bool.false_eq_true, ite_false] at h
      simp only [List.cons_append, lookupStatus, hp, Bool.false_eq_true, ite_false]
      exact ih h

theorem getContainer_setContainerStatus (w : DockerWorld) (name st s : String)
    (h : getContainer w name = some st) :
    getContainer (setContainerStatus w name s) name = some s :=
  lookupStatus_set w.containers name st s h

theorem getContainer_addContainer (w : DockerWorld) (name s : String)
    (h : getContainer w name = none) :
    getContainer (addContainer w name s) name = some s :=
  lookupStatus_append_absent w.containers name s h

theorem countChanged_self (xs : List Cat) : countChanged xs xs = 0 := by
  induction xs with
  | nil => rfl
  | cons c cs ih => simp [countChanged, ih]

theorem updateFirst_length (p : Cat → Bool) (f : Cat → Cat) (xs : List Cat) :
    ((updateFirst p f xs).1).length = xs.length := by
  induction xs with
  | nil => rfl
  | cons c cs ih =>
    by_cases hp : p c
    · simp [updateFirst, hp]
    · simp [updateFirst, hp, ih]

theorem countChanged_updateFirst (p : Cat → Bool) (f : Cat → Cat) (xs : List Cat) :
    countChanged xs (updateFirst p f xs).1 ≤ 1 := by
  induction xs with
  | nil => simp [countChanged]
  | cons c cs ih =>
    by_cases hp : p c
    · simp [updateFirst, hp, countChanged, countChanged_self]
      split <;> omega
    · simp [updateFirst, hp, countChanged]
      omega

theorem deleteFirst_sublist (p : Cat → Bool) (xs : List Cat) :
    List.Sublist (deleteFirst p xs).1 xs := by
  induction xs with
  | nil => simp [deleteFirst]
  | cons c cs ih =>
    by_cases hp : p c
    · simp only [deleteFirst, hp, if_true]
      exact List.sublist_cons_self c cs
    · simp only [deleteFirst, hp, if_false]
      exact List.Sublist.cons₂ c ih

theorem deleteFirst_length (p : Cat → Bool) (xs : List Cat) :
    xs.length ≤ (deleteFirst p xs).1.length + 1 := by
  induction xs with
  | nil => simp [deleteFirst]
  | cons c cs ih =>
    by_cases hp : p c
    · simp [deleteFirst, hp]
    · simp [deleteFirst, hp]
      omega

/-! ## Claims -/

/-- C9: the result of initialize_database equals the result of the
container-start step, whatever the existence check reported, whatever the
operator answered and whatever the script path was; internal failures of
the check, drop, create and script steps are swallowed inside those steps
and never change the returned boolean, so true certifies only that the
container started. -/
theorem claim9_result_certifies_start_only (startOk checkResult : Bool)
    (response path : String) :
    (dm_initialize_database startOk checkResult response path).1 = startOk ∧
    (di_initialize_database startOk checkResult response path).1 = startOk := by
  cases startOk <;> simp [dm_initialize_database, di_initialize_database]

/-- C1 counterexample: the raw operator response YES differs from the
literal yes, yet initialize_database still drops and recreates the existing
database, because the source compares the stripped lowercased response; so
the claim as stated, quantified over every response other than the literal
yes, is false. -/
theorem claim1_counterexample :
    "YES" ≠ "yes" ∧
    dm_initialize_database true true "YES" "seed.sql" =
      (true, [InitEvent.startContainer, InitEvent.checkExists, InitEvent.dropDatabase,
              InitEvent.createDatabase, InitEvent.executeScript "seed.sql"]) := by
  constructor
  · decide
  · rfl

/-- C1 amended: when the database exists, a response whose stripped and
lowercased form differs from yes leaves drop and create uninvoked and still
runs the script; a response normalizing to yes invokes drop, then create,
then the script.  Holds for both DatabaseManager.initialize_database and
DatabaseInitializer.initialize_database. -/
theorem claim1_confirmation_gate (response path : String) :
    (pyLower (pyStrip response) ≠ "yes" →
      dm_initialize_database true true response path =
        (true, [InitEvent.startContainer, InitEvent.checkExists,
                InitEvent.executeScript path]) ∧
      di_initialize_database true true response path =
        (true, [InitEvent.startContainer, InitEvent.checkExists,
                InitEvent.executeScript path])) ∧
    (pyLower (pyStrip response) = "yes" →
      dm_initialize_database true true response path =
        (true, [InitEvent.startContainer, InitEvent.checkExists, InitEvent.dropDatabase,
                InitEvent.createDatabase, InitEvent.executeScript path]) ∧
      di_initialize_database true true response path =
        (true, [InitEvent.startContainer, InitEvent.checkExists, InitEvent.dropDatabase,
                InitEvent.createDatabase, InitEvent.executeScript path])) := by
  constructor
  · intro h
    simp [dm_initialize_database, di_initialize_database, h]
  · intro h
    simp [dm_initialize_database, di_initialize_database, h]

/-- C1 witness: the amended gate evaluated at the declining answer no and
at the confirming answer yes. -/
theorem claim1_witness :
    (dm_initialize_database true true "no" "seed.sql" =
      (true, [InitEvent.startContainer, InitEvent.checkExists,
              InitEvent.executeScript "seed.sql"])) ∧
    (dm_initialize_database true true "yes" "seed.sql" =
      (true, [InitEvent.startContainer, InitEvent.checkExists, InitEvent.dropDatabase,
              InitEvent.createDatabase, InitEvent.executeScript "seed.sql"])) :=
  ⟨((claim1_confirmation_gate "no" "seed.sql").1 (by decide)).1,
   ((claim1_confirmation_gate "yes" "seed.sql").2 (by decide)).1⟩

/-- C7: when no container with the logical name exists, both stop_container
variants take the caught NotFound path for any value of the remove flag:
they return normally with only the not-found message logged and the world
unchanged. -/
theorem claim7_teardown_absent_safe (w : DockerWorld) (remove : Bool) :
    (getContainer w pgContainerName = none →
      pg_stop_container w remove =
        Except.ok (w, ["PostgreSQL container not found."])) ∧
    (getContainer w mongoContainerName = none →
      mongo_stop_container w remove =
        Except.ok (w, ["MongoDB container not found."])) := by
  constructor
  · intro h
    unfold pg_stop_container
    rw [h]
  · intro h
    unfold mongo_stop_container
    rw [h]

/-- C7 witness: teardown with remove on a world with no containers at all. -/
theorem claim7_witness :
    pg_stop_container ⟨[], false, false, false, false, "running"⟩ true =
      Except.ok (⟨[], false, false, false, false, "running"⟩,
        ["PostgreSQL container not found."]) ∧
    mongo_stop_container ⟨[], false, false, false, false, "running"⟩ true =
      Except.ok (⟨[], false, false, false, false, "running"⟩,
        ["MongoDB container not found."]) :=
  ⟨(claim7_teardown_absent_safe ⟨[], false, false, false, false, "running"⟩ true).1 (by decide),
   (claim7_teardown_absent_safe ⟨[], false, false, false, false, "running"⟩ true).2 (by decide)⟩

/-- C10: the name-based mutating operations affect at most one record.
update_cat_age and add_feature_to_cat keep the collection length and change
at most one position (the first record matching the name, when any), so all
other records are unchanged even when several records share the queried
name; delete_cat_by_name returns a sublist of the collection missing at
most one record. -/
theorem claim10_at_most_one_record (coll : List Cat) (name : String) (new_age : Int)
    (feature : String) :
    ((cm_update_cat_age coll name new_age).1.length = coll.length ∧
      countChanged coll (cm_update_cat_age coll name new_age).1 ≤ 1) ∧
    ((cm_add_feature_to_cat coll name feature).1.length = coll.length ∧
      countChanged coll (cm_add_feature_to_cat coll name feature).1 ≤ 1) ∧
    (List.Sublist (cm_delete_cat_by_name coll name).1 coll ∧
      coll.length ≤ (cm_delete_cat_by_name coll name).1.length + 1) :=
  ⟨⟨updateFirst_length _ _ coll, countChanged_updateFirst _ _ coll⟩,
   ⟨updateFirst_length _ _ coll, countChanged_updateFirst _ _ coll⟩,
   ⟨deleteFirst_sublist _ coll, deleteFirst_length _ coll⟩⟩

/-- C8 counterexample: DatabaseInitializer.execute_sql_script with an empty
script path still attempts the database connection (the connect event is
performed before the file open fails), so the run-script operation is not a
no-op on an absent path for every variant. -/
theorem claim8_counterexample :
    di_execute_sql_script ⟨true, [], true⟩ "" =
      ([PgEv.connect, PgEv.openFile ""],
       ["An error occurred while executing the SQL script: no such file"]) ∧
    PgEv.connect ∈ (di_execute_sql_script ⟨true, [], true⟩ "").1 := by
  constructor
  · rfl
  · decide

/-- C8 amended: with an empty script path the two DatabaseManager variants
return immediately with no connection, read or write and only the skip
message; DatabaseInitializer.execute_sql_script instead opens a connection
first, but (as no file has the empty name) performs no statement execution
and no commit, and still returns normally. -/
theorem claim8_empty_path (wm : MongoWorld) (wp : PgScriptWorld) :
    pg_execute_script wp "" =
      ([], ["No script path provided. Skipping script execution."]) ∧
    mongo_execute_script wm "" =
      (wm, [], ["No script path provided. Skipping script execution."]) ∧
    (wp.files.contains "" = false →
      PgEv.connect ∈ (di_execute_sql_script wp "").1 ∧
      PgEv.execSql ∉ (di_execute_sql_script wp "").1 ∧
      PgEv.commitTx ∉ (di_execute_sql_script wp "").1) := by
  refine ⟨by simp [pg_execute_script], by simp [mongo_execute_script], ?_⟩
  intro hf
  have hf2 : ("" : String) ∉ wp.files := by simpa using hf
  cases hc : wp.connOk <;> simp [di_execute_sql_script, hc, hf2]

/-- C8 witness: the amended statement at a world with one script file and a
working connection. -/
theorem claim8_witness :
    PgEv.connect ∈ (di_execute_sql_script ⟨true, ["seed.sql"], true⟩ "").1 ∧
    PgEv.execSql ∉ (di_execute_sql_script ⟨true, ["seed.sql"], true⟩ "").1 ∧
    PgEv.commitTx ∉ (di_execute_sql_script ⟨true, ["seed.sql"], true⟩ "").1 :=
  (claim8_empty_path ⟨none, [], 0, true⟩ ⟨true, ["seed.sql"], true⟩).2.2 (by decide)

/-- C3 counterexample: three operations leak errors upward instead of
returning a sentinel: seed DatabaseInitializer.init_database re-raises
after printing, TaskManager.get_user_tasks has no handler around its query,
and DatabaseManager.get_initializer raises ValueError on a value outside
the enum; so not every operation of the system confines errors at its own
boundary. -/
theorem claim3_counterexample :
    (seed_init_database ⟨true, false⟩).2 = Except.error () ∧
    tm_get_user_tasks ⟨[], [], true⟩ 1 = Except.error () ∧
    get_initializer none = Except.error () :=
  ⟨rfl, rfl, rfl⟩

/-- C3 amended: operations such as check_database_exists do catch engine
errors at their boundary, log, and return a sentinel, but the policy is not
universal: seed init_database propagates every database error to its caller
after logging it, get_user_tasks propagates query errors uncaught, and
get_initializer raises on an unsupported database type. -/
theorem claim3_error_boundaries (w : SeedWorld) (tw : TaskDbWorld) (uid : Nat)
    (pw : PgServerWorld) (dbname : String) :
    ((w.firstConnectFails = true ∨ w.execFails = true) →
      (seed_init_database w).2 = Except.error ()) ∧
    (w.firstConnectFails = false → w.execFails = false →
      (seed_init_database w).2 = Except.ok ()) ∧
    (tw.queryFails = true → tm_get_user_tasks tw uid = Except.error ()) ∧
    get_initializer none = Except.error () ∧
    (pw.connOk = false →
      pg_check_database_exists pw dbname =
        (false,
         ["An error occurred while checking the PostgreSQL database: connection failed"])) := by
  refine ⟨?_, ?_, ?_, rfl, ?_⟩
  · rintro (h | h)
    · simp [seed_init_database, h]
    · cases hc : w.firstConnectFails <;> simp [seed_init_database, h, hc]
  · intro h1 h2
    simp [seed_init_database, h1, h2]
  · intro h
    simp [tm_get_user_tasks, h]
  · intro h
    simp [pg_check_database_exists, h]

/-- C3 witness: the amended boundary statement at concrete worlds, one per
hypothesis. -/
theorem claim3_witness :
    (seed_init_database ⟨false, true⟩).2 = Except.error () ∧
    (seed_init_database ⟨false, false⟩).2 = Except.ok () ∧
    tm_get_user_tasks ⟨[], [], true⟩ 2 = Except.error () ∧
    pg_check_database_exists ⟨false, ["task_management"]⟩ "task_management" =
      (false,
       ["An error occurred while checking the PostgreSQL database: connection failed"]) :=
  ⟨(claim3_error_boundaries ⟨false, true⟩ ⟨[], [], true⟩ 2 ⟨false, ["task_management"]⟩
      "task_management").1 (Or.inr rfl),
   (claim3_error_boundaries ⟨false, false⟩ ⟨[], [], true⟩ 2 ⟨false, ["task_management"]⟩
      "task_management").2.1 rfl rfl,
   (claim3_error_boundaries ⟨false, true⟩ ⟨[], [], true⟩ 2 ⟨false, ["task_management"]⟩
      "task_management").2.2.1 rfl,
   (claim3_error_boundaries ⟨false, true⟩ ⟨[], [], true⟩ 2 ⟨false, ["task_management"]⟩
      "task_management").2.2.2.2 rfl⟩

/-! Every successful start call whose boolean is true leaves the container
with status running in the returned world. -/

theorem pg_start_container_true_running (w w2 : DockerWorld) (log : List String)
    (h : pg_start_container w = Except.ok (true, w2, log)) :
    getContainer w2 pgContainerName = some "running" := by
  unfold pg_start_container at h
  split at h
  · split at h
    · split at h
      · simp at h
      · simp only [Except.ok.injEq, Prod.mk.injEq] at h
        obtain ⟨hb, hw, -⟩ := h
        subst hw
        exact eq_of_beq hb
    · simp only [Except.ok.injEq, Prod.mk.injEq] at h
      obtain ⟨hb, hw, -⟩ := h
      subst hw
      exact eq_of_beq hb
  · split at h
    · simp at h
    · simp only [Except.ok.injEq, Prod.mk.injEq] at h
      obtain ⟨hb, hw, -⟩ := h
      subst hw
      exact eq_of_beq hb

theorem di_start_container_true_running (params : PgConnParams) (w w2 : DockerWorld)
    (log : List String)
    (h : di_start_postgres_container params w = Except.ok (true, w2, log)) :
    getContainer w2 pgContainerName = some "running" := by
  unfold di_start_postgres_container at h
  split at h
  · split at h
    · split at h
      · simp at h
      · simp only [Except.ok.injEq, Prod.mk.injEq] at h
        obtain ⟨hb, hw, -⟩ := h
        subst hw
        exact eq_of_beq hb
    · simp only [Except.ok.injEq, Prod.mk.injEq] at h
      obtain ⟨hb, hw, -⟩ := h
      subst hw
      exact eq_of_beq hb
  · split at h
    · simp at h
    · simp only [Except.ok.injEq, Prod.mk.injEq] at h
      obtain ⟨hb, hw, -⟩ := h
      subst hw
      exact eq_of_beq hb

/-- C6 counterexample: on a world whose container is already running (the
state reached by any successful first call), PostgresDatabaseInitializer
start_container returns true without creating anything but logs nothing at
all, because its already-running message is commented out in the source; so
the second call does not report the backing process as already running. -/
theorem claim6_counterexample :
    pg_start_container
        ⟨[("my_postgres_container", "running")], false, false, false, false, "running"⟩ =
      Except.ok (true,
        ⟨[("my_postgres_container", "running")], false, false, false, false, "running"⟩,
        ([] : List String)) := by
  rfl

/-- C6 amended: after a first call that returned true, a second call
returns true again with the world unchanged, so no duplicate container is
created; the DatabaseInitializer.start_postgres_container variant also logs
the already-running message on the second call, while the DatabaseManager
variant logs nothing there because its message is commented out. -/
theorem claim6_second_call_idempotent (w w2 : DockerWorld) (log : List String)
    (params : PgConnParams) :
    (pg_start_container w = Except.ok (true, w2, log) →
      pg_start_container w2 = Except.ok (true, w2, [])) ∧
    (di_start_postgres_container params w = Except.ok (true, w2, log) →
      di_start_postgres_container params w2 =
        Except.ok (true, w2, ["Container is already running."])) := by
  constructor
  · intro h
    have hr := pg_start_container_true_running w w2 log h
    unfold pg_start_container
    rw [hr]
    simp
  · intro h
    have hr := di_start_container_true_running params w w2 log h
    unfold di_start_postgres_container
    rw [hr]
    simp

/-- C6 witness: the amended idempotence applied to the world reached by a
successful first call that had to start an existing exited container. -/
theorem claim6_witness :
    pg_start_container
        ⟨[("my_postgres_container", "running")], false, false, false, false, "running"⟩ =
      Except.ok (true,
        ⟨[("my_postgres_container", "running")], false, false, false, false, "running"⟩, []) ∧
    di_start_postgres_container
        ⟨"postgres", "mysecretpassword", "localhost", "5432", "task_management"⟩
        ⟨[("my_postgres_container", "running")], false, false, false, false, "running"⟩ =
      Except.ok (true,
        ⟨[("my_postgres_container", "running")], false, false, false, false, "running"⟩,
        ["Container is already running."]) :=
  ⟨(claim6_second_call_idempotent
      ⟨[("my_postgres_container", "exited")], false, false, false, false, "running"⟩
      ⟨[("my_postgres_container", "running")], false, false, false, false, "running"⟩
      ["PostgreSQL container exists but is not running. Starting container...",
       "Waiting for PostgreSQL database to start..."]
      ⟨"postgres", "mysecretpassword", "localhost", "5432", "task_management"⟩).1 rfl,
   (claim6_second_call_idempotent
      ⟨[("my_postgres_container", "exited")], false, false, false, false, "running"⟩
      ⟨[("my_postgres_container", "running")], false, false, false, false, "running"⟩
      ["Container exists but is not running. Starting container...",
       "Waiting for PostgreSQL database to start..."]
      ⟨"postgres", "mysecretpassword", "localhost", "5432", "task_management"⟩).2 rfl⟩

/-! Helper lemmas for claim 2: with no raising SDK call the start operations
return a value, and when the container cannot reach running status they
return false rather than raising. -/

theorem pg_start_isOk (w : DockerWorld) (h1 : w.startRaises = false)
    (h2 : w.runRaises = false) : (pg_start_container w).isOk = true := by
  unfold pg_start_container
  split
  · split
    · simp only [h1, Bool.false_eq_true, if_false]
      rfl
    · rfl
  · simp only [h2, Bool.false_eq_true, if_false]
    rfl

theorem mongo_start_isOk (w : DockerWorld) (h1 : w.startRaises = false)
    (h2 : w.runRaises = false) : (mongo_start_container w).isOk = true := by
  unfold mongo_start_container
  split
  · split
    · simp only [h1, Bool.false_eq_true, if_false]
      rfl
    · rfl
  · simp only [h2, Bool.false_eq_true, if_false]
    rfl

theorem di_start_isOk (params : PgConnParams) (w : DockerWorld) (h1 : w.startRaises = false)
    (h2 : w.runRaises = false) : (di_start_postgres_container params w).isOk = true := by
  unfold di_start_postgres_container
  split
  · split
    · simp only [h1, Bool.false_eq_true, if_false]
      rfl
    · rfl
  · simp only [h2, Bool.false_eq_true, if_false]
    rfl

theorem pg_start_false_of_not_running (w : DockerWorld) (h1 : w.startRaises = false)
    (h2 : w.runRaises = false) (h3 : w.statusAfterWait ≠ "running")
    (h4 : getContainer w pgContainerName ≠ some "running") :
    ∃ w2 log, pg_start_container w = Except.ok (false, w2, log) := by
  unfold pg_start_container
  split
  next st hg =>
    have hst : st ≠ "running" := by
      intro e
      exact h4 (by rw [hg, e])
    rw [if_pos hst]
    simp only [h1, Bool.false_eq_true, if_false]
    have hset := getContainer_setContainerStatus w pgContainerName st w.statusAfterWait hg
    have hbf : (getContainer (setContainerStatus w pgContainerName w.statusAfterWait)
        pgContainerName == some "running") = false := by
      rw [hset]
      simp [h3]
    rw [hbf]
    exact ⟨_, _, rfl⟩
  next hg =>
    simp only [h2, Bool.false_eq_true, if_false]
    have hadd := getContainer_addContainer w pgContainerName w.statusAfterWait hg
    have hbf : (getContainer (addContainer w pgContainerName w.statusAfterWait)
        pgContainerName == some "running") = false := by
      rw [hadd]
      simp [h3]
    rw [hbf]
    exact ⟨_, _, rfl⟩

theorem mongo_start_false_of_not_running (w : DockerWorld) (h1 : w.startRaises = false)
    (h2 : w.runRaises = false) (h3 : w.statusAfterWait ≠ "running")
    (h4 : getContainer w mongoContainerName ≠ some "running") :
    ∃ w2 log, mongo_start_container w = Except.ok (false, w2, log) := by
  unfold mongo_start_container
  split
  next st hg =>
    have hst : st ≠ "running" := by
      intro e
      exact h4 (by rw [hg, e])
    rw [if_pos hst]
    simp only [h1, Bool.false_eq_true, if_false]
    have hset := getContainer_setContainerStatus w mongoContainerName st w.statusAfterWait hg
    have hbf : (getContainer (setContainerStatus w mongoContainerName w.statusAfterWait)
        mongoContainerName == some "running") = false := by
      rw [hset]
      simp [h3]
    rw [hbf]
    exact ⟨_, _, rfl⟩
  next hg =>
    simp only [h2, Bool.false_eq_true, if_false]
    have hadd := getContainer_addContainer w mongoContainerName w.statusAfterWait hg
    have hbf : (getContainer (addContainer w mongoContainerName w.statusAfterWait)
        mongoContainerName == some "running") = false := by
      rw [hadd]
      simp [h3]
    rw [hbf]
    exact ⟨_, _, rfl⟩

theorem di_start_false_of_not_running (params : PgConnParams) (w : DockerWorld)
    (h1 : w.startRaises = false) (h2 : w.runRaises = false)
    (h3 : w.statusAfterWait ≠ "running")
    (h4 : getContainer w pgContainerName ≠ some "running") :
    ∃ w2 log, di_start_postgres_container params w = Except.ok (false, w2, log) := by
  unfold di_start_postgres_container
  split
  next st hg =>
    have hst : st ≠ "running" := by
      intro e
      exact h4 (by rw [hg, e])
    rw [if_pos hst]
    simp only [h1, Bool.false_eq_true, if_false]
    have hset := getContainer_setContainerStatus w pgContainerName st w.statusAfterWait hg
    have hbf : (getContainer (setContainerStatus w pgContainerName w.statusAfterWait)
        pgContainerName == some "running") = false := by
      rw [hset]
      simp [h3]
    rw [hbf]
    exact ⟨_, _, rfl⟩
  next hg =>
    simp only [h2, Bool.false_eq_true, if_false]
    have hadd := getContainer_addContainer w pgContainerName w.statusAfterWait hg
    have hbf : (getContainer (addContainer w pgContainerName w.statusAfterWait)
        pgContainerName == some "running") = false := by
      rw [hadd]
      simp [h3]
    rw [hbf]
    exact ⟨_, _, rfl⟩

/-- C2 counterexample: a world whose container exists in exited state and
whose start call raises an APIError (for instance because the host port is
taken): start_container propagates the exception instead of returning
false, because the source catches only the NotFound error. -/
theorem claim2_counterexample :
    pg_start_container
        ⟨[("my_postgres_container", "exited")], true, false, false, false, "running"⟩ =
      Except.error DockerErr.apiError := by
  rfl

/-- C2 amended: the ensure-running operations handle the container-absent
condition themselves (by creating the container) and, whenever the SDK
start and run calls do not raise, they return a boolean rather than
throwing; in particular they return false when the container cannot reach
running status after the settle wait.  An SDK error raised by the start or
run call itself, however, propagates to the caller. -/
theorem claim2_start_no_throw_behavior (w : DockerWorld) (params : PgConnParams) :
    (w.startRaises = false → w.runRaises = false →
      (pg_start_container w).isOk = true ∧
      (mongo_start_container w).isOk = true ∧
      (di_start_postgres_container params w).isOk = true) ∧
    (w.startRaises = false → w.runRaises = false → w.statusAfterWait ≠ "running" →
      (getContainer w pgContainerName ≠ some "running" →
        ∃ w2 log, pg_start_container w = Except.ok (false, w2, log)) ∧
      (getContainer w mongoContainerName ≠ some "running" →
        ∃ w2 log, mongo_start_container w = Except.ok (false, w2, log)) ∧
      (getContainer w pgContainerName ≠ some "running" →
        ∃ w2 log, di_start_postgres_container params w = Except.ok (false, w2, log))) := by
  constructor
  · intro h1 h2
    exact ⟨pg_start_isOk w h1 h2, mongo_start_isOk w h1 h2, di_start_isOk params w h1 h2⟩
  · intro h1 h2 h3
    exact ⟨fun h4 => pg_start_false_of_not_running w h1 h2 h3 h4,
           fun h4 => mongo_start_false_of_not_running w h1 h2 h3 h4,
           fun h4 => di_start_false_of_not_running params w h1 h2 h3 h4⟩

/-- C2 witness: a world with both containers exited and a settle status
that never reaches running; no SDK call raises, and each variant returns
false rather than throwing. -/
theorem claim2_witness :
    ((pg_start_container
        ⟨[("my_postgres_container", "exited"), ("my_mongodb_container", "exited")],
         false, false, false, false, "created"⟩).isOk = true ∧
      (mongo_start_container
        ⟨[("my_postgres_container", "exited"), ("my_mongodb_container", "exited")],
         false, false, false, false, "created"⟩).isOk = true ∧
      (di_start_postgres_container
        ⟨"postgres", "mysecretpassword", "localhost", "5432", "task_management"⟩
        ⟨[("my_postgres_container", "exited"), ("my_mongodb_container", "exited")],
         false, false, false, false, "created"⟩).isOk = true) ∧
    (∃ w2 log, pg_start_container
        ⟨[("my_postgres_container", "exited"), ("my_mongodb_container", "exited")],
         false, false, false, false, "created"⟩ = Except.ok (false, w2, log)) := by
  refine ⟨(claim2_start_no_throw_behavior
      ⟨[("my_postgres_container", "exited"), ("my_mongodb_container", "exited")],
       false, false, false, false, "created"⟩
      ⟨"postgres", "mysecretpassword", "localhost", "5432", "task_management"⟩).1 rfl rfl, ?_⟩
  exact ((claim2_start_no_throw_behavior
      ⟨[("my_postgres_container", "exited"), ("my_mongodb_container", "exited")],
       false, false, false, false, "created"⟩
      ⟨"postgres", "mysecretpassword", "localhost", "5432", "task_management"⟩).2
    rfl rfl (by decide)).1 (by decide)

/-! Helper lemmas for claim 5: the addToSet update preserves the record
name, is idempotent, and its repeated application leaves the value with
multiplicity one only when the record did not already hold duplicates. -/

theorem addToSetFeature_name (feature : String) (c : Cat) :
    (addToSetFeature feature c).name = c.name := by
  unfold addToSetFeature
  split <;> rfl

theorem addToSetFeature_idem (feature : String) (c : Cat) :
    addToSetFeature feature (addToSetFeature feature c) = addToSetFeature feature c := by
  by_cases h : feature ∈ c.features
  · simp [addToSetFeature, h]
  · simp [addToSetFeature, h]

theorem addToSetFeature_count (feature : String) (c : Cat) :
    ((addToSetFeature feature (addToSetFeature feature c)).features).count feature =
      max (c.features.count feature) 1 := by
  rw [addToSetFeature_idem]
  by_cases h : feature ∈ c.features
  · simp only [addToSetFeature, h, if_true]
    have h1 : 0 < c.features.count feature := List.count_pos_iff.mpr h
    omega
  · simp only [addToSetFeature, h, if_false]
    have h0 : c.features.count feature = 0 := List.count_eq_zero.mpr h
    simp [List.count_append, h0]

theorem updateFirst_idem (p : Cat → Bool) (f : Cat → Cat)
    (hp : ∀ c, p (f c) = p c) (hf : ∀ c, f (f c) = f c) (xs : List Cat) :
    updateFirst p f (updateFirst p f xs).1 = updateFirst p f xs := by
  induction xs with
  | nil => rfl
  | cons c cs ih =>
    by_cases h : p c
    · simp [updateFirst, h, hp, hf]
    · simp [updateFirst, h, ih]

/-- C5 counterexample: a record created with a duplicated feature value
keeps both occurrences: adding orange twice to a cat whose features are
orange, orange leaves the collection unchanged with two occurrences of
orange, not exactly one, because the addToSet operator never deduplicates
pre-existing entries. -/
theorem claim5_counterexample :
    (cm_add_feature_to_cat
        (cm_add_feature_to_cat [⟨0, "barsik", 3, ["orange", "orange"]⟩] "barsik" "orange").1
        "barsik" "orange").1 =
      [⟨0, "barsik", 3, ["orange", "orange"]⟩] ∧
    (["orange", "orange"].count "orange" = 1 → False) := by
  constructor
  · rfl
  · decide

/-- C5 amended: add_feature_to_cat is idempotent (the second identical call
changes nothing, matched count included), and after two identical calls the
updated record holds the value with multiplicity max of its original count
and one; in particular exactly one occurrence whenever the record did not
already hold the value more than once.  The third conjunct exhibits the
updated record: it is the first match, and it ends in the doubly applied
addToSet state. -/
theorem claim5_addToSet_idempotent (coll : List Cat) (name feature : String) :
    cm_add_feature_to_cat (cm_add_feature_to_cat coll name feature).1 name feature =
      cm_add_feature_to_cat coll name feature ∧
    (∀ c : Cat, ((addToSetFeature feature (addToSetFeature feature c)).features).count feature =
      max (c.features.count feature) 1) ∧
    (∀ (c : Cat) (cs : List Cat), (c.name == name) = true →
      ((cm_add_feature_to_cat (cm_add_feature_to_cat (c :: cs) name feature).1 name
          feature).1).head? = some (addToSetFeature feature (addToSetFeature feature c))) := by
  refine ⟨?_, fun c => addToSetFeature_count feature c, ?_⟩
  · exact updateFirst_idem _ _
      (fun c => by rw [addToSetFeature_name])
      (fun c => addToSetFeature_idem feature c) coll
  · intro c cs h
    have h2 : ((addToSetFeature feature c).name == name) = true := by
      rw [addToSetFeature_name]
      exact h
    simp [cm_add_feature_to_cat, updateFirst, h, h2]

/-- C5 witness: the amended statement at the example record barsik with
features orange, adding lazy twice. -/
theorem claim5_witness :
    ((cm_add_feature_to_cat
        (cm_add_feature_to_cat [⟨0, "barsik", 3, ["orange"]⟩] "barsik" "lazy").1
        "barsik" "lazy").1).head? =
      some (addToSetFeature "lazy" (addToSetFeature "lazy" ⟨0, "barsik", 3, ["orange"]⟩)) :=
  (claim5_addToSet_idempotent [⟨0, "barsik", 3, ["orange"]⟩] "barsik" "lazy").2.2
    ⟨0, "barsik", 3, ["orange"]⟩ [] (by decide)

/-! Helper lemmas for claim 4. -/

theorem getField_setField (d : MDoc) (k : String) (v : MVal) :
    getField (setField d k v) k = some v := by
  induction d with
  | nil => simp [setField, getField]
  | cons p ps ih =>
    by_cases h : p.1 == k
    · simp [setField, h, getField]
    · simp [setField, h, getField, ih]

theorem assignIds_no_id (ds : List MDoc) :
    ∀ c : Nat, (∀ d ∈ ds, getField d "_id" = none) →
    ∃ ds2, assignIds ds c = some (ds2, c + ds.length) ∧
      ds2.length = ds.length ∧
      ds2.map docId = (idList c ds.length).map some := by
  induction ds with
  | nil =>
    intro c h
    exact ⟨[], rfl, rfl, rfl⟩
  | cons d ds ih =>
    intro c h
    have hd : getField d "_id" = none := h d (List.mem_cons_self d ds)
    obtain ⟨ds2, h1, h2, h3⟩ := ih (c + 1) (fun x hx => h x (List.mem_cons_of_mem d hx))
    refine ⟨setField d "_id" (MVal.objId c) :: ds2, ?_, ?_, ?_⟩
    · simp only [assignIds, hd, h1, List.length_cons]
      have : c + 1 + ds.length = c + (ds.length + 1) := by omega
      rw [this]
    · simp [h2]
    · simp [idList, docId, getField_setField, h3]

theorem mem_idList (x : MVal) : ∀ (n c : Nat), x ∈ idList c n →
    ∃ k, c ≤ k ∧ k < c + n ∧ x = MVal.objId k := by
  intro n
  induction n with
  | zero =>
    intro c h
    simp [idList] at h
  | succ m ih =>
    intro c h
    simp only [idList, List.mem_cons] at h
    rcases h with h | h
    · exact ⟨c, le_refl c, by omega, h⟩
    · obtain ⟨k, hk1, hk2, hk3⟩ := ih (c + 1) h
      exact ⟨k, by omega, by omega, hk3⟩

theorem idList_nodup : ∀ (n c : Nat), (idList c n).Nodup := by
  intro n
  induction n with
  | zero => intro c; simp [idList]
  | succ m ih =>
    intro c
    simp only [idList, List.nodup_cons]
    refine ⟨?_, ih (c + 1)⟩
    intro hmem
    obtain ⟨k, hk1, hk2, hk3⟩ := mem_idList _ _ _ hmem
    injection hk3 with he
    omega

theorem collIds_append (l1 l2 : List MDoc) :
    collIds (l1 ++ l2) = collIds l1 ++ collIds l2 := by
  simp [collIds, List.filterMap_append]

theorem insertManyUnordered_fresh (ds : List MDoc) :
    ∀ coll : List MDoc,
      (∀ d ∈ ds, ∀ i, docId d = some i → i ∉ collIds coll) →
      (ds.map docId).Nodup →
      insertManyUnordered coll ds = coll ++ ds := by
  induction ds with
  | nil =>
    intro coll h hn
    simp [insertManyUnordered]
  | cons d ds ih =>
    intro coll h hn
    simp only [List.map_cons, List.nodup_cons] at hn
    obtain ⟨hd_notin, hn2⟩ := hn
    have step : insertOneUnordered coll d = coll ++ [d] := by
      unfold insertOneUnordered
      cases hid : docId d with
      | none => rfl
      | some i =>
        have hni : i ∉ collIds coll := h d (List.mem_cons_self d ds) i hid
        simp [hni]
    have hnext : ∀ x ∈ ds, ∀ i, docId x = some i → i ∉ collIds (coll ++ [d]) := by
      intro x hx i hxi
      rw [collIds_append]
      simp only [List.mem_append]
      rintro (hc | hc)
      · exact h x (List.mem_cons_of_mem d hx) i hxi hc
      · cases hfd : docId d with
        | none => simp [collIds, hfd] at hc
        | some j =>
          simp [collIds, hfd] at hc
          apply hd_notin
          rw [hfd, ← hc, ← hxi]
          exact List.mem_map_of_mem _ hx
    calc insertManyUnordered coll (d :: ds)
        = insertManyUnordered (insertOneUnordered coll d) ds := rfl
      _ = insertManyUnordered (coll ++ [d]) ds := by rw [step]
      _ = (coll ++ [d]) ++ ds := ih (coll ++ [d]) hnext hn2
      _ = coll ++ (d :: ds) := by simp

/-- C4: executing a document-store script that parses to an array of N
documents none of which carries an _id inserts exactly N new documents into
the collection, in order, each assigned a distinct freshly generated
identifier (the next N values of the generator), through a single
insert_many call with ordered false; a document that does carry an _id has
the value reinterpreted as the native ObjectId type; and the unordered
insert continues past an individually failing document. -/
theorem claim4_script_insertion (w : MongoWorld) (path : String) (ds ds2 : List MDoc)
    (c2 : Nat) :
    (path ≠ "" → w.fileData = some (MJson.arr ds) → w.connOk = true →
      (∀ d ∈ ds, getField d "_id" = none) →
      (∀ k, w.nextOid ≤ k → MVal.objId k ∉ collIds w.coll) →
      assignIds ds w.nextOid = some (ds2, c2) →
      c2 = w.nextOid + ds.length ∧
      ds2.length = ds.length ∧
      ds2.map docId = (idList w.nextOid ds.length).map some ∧
      (ds2.map docId).Nodup ∧
      mongo_execute_script w path =
        ({ w with coll := w.coll ++ ds2, nextOid := c2 },
         [MEv.openFile path, MEv.connect, MEv.insertMany false],
         ["MongoDB script executed successfully."])) ∧
    (∀ (d : MDoc) (rest : List MDoc) (s : String) (c : Nat) (res : List MDoc × Nat),
      getField d "_id" = some (MVal.str s) → isValidOidString s = true →
      assignIds (d :: rest) c = some res →
      res.1.head? = some (setField d "_id" (MVal.objId (hexToNat s)))) ∧
    (∀ (coll : List MDoc) (d1 d2 : MDoc) (i1 i2 : MVal),
      docId d1 = some i1 → i1 ∈ collIds coll →
      docId d2 = some i2 → i2 ∉ collIds coll →
      insertManyUnordered coll [d1, d2] = coll ++ [d2]) := by
  refine ⟨?_, ?_, ?_⟩
  · intro hp hf hc hno hfresh hassign
    obtain ⟨ds2x, h1, h2, h3⟩ := assignIds_no_id ds w.nextOid hno
    rw [h1] at hassign
    simp only [Option.some.injEq, Prod.mk.injEq] at hassign
    obtain ⟨hds, hc2⟩ := hassign
    subst hds
    subst hc2
    have hnodup : (ds2x.map docId).Nodup := by
      rw [h3]
      exact (idList_nodup ds.length w.nextOid).map (Option.some_injective MVal)
    have hins : insertManyUnordered w.coll ds2x = w.coll ++ ds2x := by
      apply insertManyUnordered_fresh ds2x w.coll ?_ hnodup
      intro d hd i hdi
      have hmem : some i ∈ ds2x.map docId := by
        rw [← hdi]
        exact List.mem_map_of_mem _ hd
      rw [h3] at hmem
      obtain ⟨x, hx1, hx2⟩ := List.mem_map.mp hmem
      obtain ⟨k, hk1, hk2, hk3⟩ := mem_idList x ds.length w.nextOid hx1
      have hik : i = MVal.objId k := by
        injection hx2 with he
        rw [← he, hk3]
      rw [hik]
      exact hfresh k hk1
    refine ⟨rfl, h2, h3, hnodup, ?_⟩
    unfold mongo_execute_script
    rw [if_neg hp, hf]
    simp only [h1, hc, if_true, hins]
  · intro d rest s c res hid hval hres
    unfold assignIds at hres
    rw [hid] at hres
    simp only [oidCoerce, hval, if_true] at hres
    cases har : assignIds rest c with
    | none =>
      rw [har] at hres
      simp at hres
    | some pr =>
      obtain ⟨l2, c3⟩ := pr
      rw [har] at hres
      simp only [Option.some.injEq] at hres
      rw [← hres]
      rfl
  · intro coll d1 d2 i1 i2 h1 h2 h3 h4
    have s1 : insertOneUnordered coll d1 = coll := by
      unfold insertOneUnordered
      rw [h1]
      simp [h2]
    have s2 : insertOneUnordered coll d2 = coll ++ [d2] := by
      unfold insertOneUnordered
      rw [h3]
      simp [h4]
    calc insertManyUnordered coll [d1, d2]
        = insertOneUnordered (insertOneUnordered coll d1) d2 := rfl
      _ = insertOneUnordered coll d2 := by rw [s1]
      _ = coll ++ [d2] := s2

/-- C4 witness: a two-document script with no identifiers, seeded into an
empty collection with the generator at seven: both documents are inserted
with the fresh identifiers seven and eight and the generator advances to
nine. -/
theorem claim4_witness :
    mongo_execute_script
        ⟨some (MJson.arr [[("name", MVal.str "barsik")], [("name", MVal.str "murzik")]]),
         [], 7, true⟩ "cats_script.js" =
      (⟨some (MJson.arr [[("name", MVal.str "barsik")], [("name", MVal.str "murzik")]]),
        [[("name", MVal.str "barsik"), ("_id", MVal.objId 7)],
         [("name", MVal.str "murzik"), ("_id", MVal.objId 8)]], 9, true⟩,
       [MEv.openFile "cats_script.js", MEv.connect, MEv.insertMany false],
       ["MongoDB script executed successfully."]) :=
  ((claim4_script_insertion
      ⟨some (MJson.arr [[("name", MVal.str "barsik")], [("name", MVal.str "murzik")]]),
       [], 7, true⟩ "cats_script.js"
      [[("name", MVal.str "barsik")], [("name", MVal.str "murzik")]]
      [[("name", MVal.str "barsik"), ("_id", MVal.objId 7)],
       [("name", MVal.str "murzik"), ("_id", MVal.objId 8)]] 9).1
    (by decide) rfl rfl (by decide) (by intro k hk; simp [collIds]) (by decide)).2.2.2.2
